import Mathlib

/-!
Verification development for the HRbackend repository.

The file shallowly embeds, in Lean, the code the claims are about:
* the resume field-extraction engine `extractResumeData` of
  `src/services/pdfParser.js` (regular expressions are embedded as
  syntax trees and run by a JavaScript-faithful backtracking matcher), and
* the birthday filter shared by `checkAndSendBirthdaySMS`
  (`src/services/graphService.js`) and the `/birthdays/today` route.

Strings are modelled as their lists of characters (the sources only ever
see ASCII text in the claims' scenarios, so JavaScript UTF-16 indices and
character indices coincide).
-/

set_option maxRecDepth 100000

namespace HRV

/-! ## Character classes (JavaScript regex escapes, ASCII range) -/

def isDigitC (c : Char) : Bool := '0' ≤ c && c ≤ '9'

def isLowerC (c : Char) : Bool := 'a' ≤ c && c ≤ 'z'

def isUpperC (c : Char) : Bool := 'A' ≤ c && c ≤ 'Z'

def isAlphaC (c : Char) : Bool := isLowerC c || isUpperC c

/-- JavaScript `\s` (ASCII part). -/
def isWsC (c : Char) : Bool :=
  c = ' ' || c = '\t' || c = '\n' || c = '\r' || c = '\x0b' || c = '\x0c'

/-- JavaScript `\w`: characters counted as word characters by `\b`. -/
def isWordC (c : Char) : Bool := isDigitC c || isAlphaC c || c = '_'

def lowerL (s : List Char) : List Char := s.map Char.toLower

def upperL (s : List Char) : List Char := s.map Char.toUpper

/-! ## JavaScript string primitives on `List Char` -/

/-- `String.prototype.trim()` (ASCII whitespace). -/
def trimL (s : List Char) : List Char :=
  ((s.dropWhile isWsC).reverse.dropWhile isWsC).reverse

def isPrefixL : List Char → List Char → Bool
  | [], _ => true
  | _ :: _, [] => false
  | a :: as, b :: bs => a = b && isPrefixL as bs

/-- `String.prototype.includes(sub)`. -/
def containsL : List Char → List Char → Bool
  | [], sub => sub.isEmpty
  | c :: t, sub => isPrefixL sub (c :: t) || containsL t sub

/-- `String.prototype.indexOf(sub)` (`none` for JavaScript's `-1`). -/
def indexOfAux : List Char → List Char → Nat → Option Nat
  | [], sub, i => if isPrefixL sub [] then some i else none
  | c :: t, sub, i => if isPrefixL sub (c :: t) then some i else indexOfAux t sub (i + 1)

def indexOfL (hay sub : List Char) : Option Nat := indexOfAux hay sub 0

/-- `String.prototype.substring(a, b)` for `a ≤ b` (both clamped to length). -/
def substringL (s : List Char) (a b : Nat) : List Char := (s.take b).drop a

/-- `String.prototype.split(sep)` with a single-character literal separator. -/
def splitCharAux (sep : Char) : List Char → List Char → List (List Char)
  | [], acc => [acc.reverse]
  | c :: t, acc =>
    if c = sep then acc.reverse :: splitCharAux sep t [] else splitCharAux sep t (c :: acc)

def splitCharL (sep : Char) (s : List Char) : List (List Char) := splitCharAux sep s []

/-- `String.prototype.split(/\r?\n/)`. -/
def splitLinesAux : List Char → List Char → List (List Char)
  | [], acc => [acc.reverse]
  | '\r' :: '\n' :: t, acc => acc.reverse :: splitLinesAux t []
  | '\n' :: t, acc => acc.reverse :: splitLinesAux t []
  | c :: t, acc => splitLinesAux t (c :: acc)

def splitLinesL (s : List Char) : List (List Char) := splitLinesAux s []

mutual

/-- `String.prototype.split(/\s+/)`: part that is inside a field. -/
def splitWsA : List Char → List Char → List (List Char)
  | [], acc => [acc.reverse]
  | c :: t, acc =>
    if isWsC c then acc.reverse :: splitWsB t else splitWsA t (c :: acc)

/-- `String.prototype.split(/\s+/)`: part that is inside a separator run. -/
def splitWsB : List Char → List (List Char)
  | [] => [[]]
  | c :: t => if isWsC c then splitWsB t else splitWsA t [c]

end

def splitWsL (s : List Char) : List (List Char) := splitWsA s []

/-- First `some` produced by `f` along the list (the shape of the source's
`for … { if (…) { set; break } }` loops). -/
def firstSome : List α → (α → Option β) → Option β
  | [], _ => none
  | a :: t, f => match f a with
    | some b => some b
    | none => firstSome t f

/-- JavaScript `a || b` on strings (empty string is falsy). -/
def jsOr (a b : String) : String := if a = "" then b else a

def strOf (l : List Char) : String := String.mk l

def strToLower (s : String) : String := strOf (lowerL s.data)

def strIncludes (hay sub : String) : Bool := containsL hay.data sub.data

def strTrim (s : String) : String := strOf (trimL s.data)

/-! ## Birthday matcher

Embeds the `birthdayPeople` filter body that appears verbatim both in
`checkAndSendBirthdaySMS` (`src/services/graphService.js`) and in the
`/birthdays/today` route.  `day`, `month` (1–12) and `monthName` are the
values the enclosing function computes from `today`; `dob` is the record's
free-text `dateOfBirth` (the filter first rejects falsy values). -/

/-- `String(n).padStart(2, '0')`. -/
def padStart2 (s : String) : String :=
  if 2 ≤ s.length then s else if s.length = 1 then "0" ++ s else "00"

/-- `day === 1 ? '1st' : day === 2 ? '2nd' : day === 3 ? '3rd' : `${day}th`` -/
def dayOrdinal (day : Nat) : String :=
  if day = 1 then "1st" else if day = 2 then "2nd" else if day = 3 then "3rd"
  else toString day ++ "th"

/-- The `datePatterns` array built inside the filter. -/
def birthdayDatePatterns (day month : Nat) (monthName : String) : List String :=
  let dayStr := padStart2 (toString day)
  let monthStr := padStart2 (toString month)
  [ dayStr ++ "/" ++ monthStr ++ "/", dayStr ++ "-" ++ monthStr ++ "-",
    monthStr ++ "/" ++ dayStr ++ "/", monthStr ++ "-" ++ dayStr ++ "-",
    dayStr ++ "/" ++ monthStr, dayStr ++ "-" ++ monthStr,
    monthStr ++ "/" ++ dayStr, monthStr ++ "-" ++ dayStr,
    dayStr ++ monthStr, monthStr ++ dayStr,
    dayStr ++ " " ++ strToLower monthName, strToLower monthName ++ " " ++ dayStr,
    toString day ++ " " ++ strToLower monthName, strToLower monthName ++ " " ++ toString day ]

/-- The filter predicate: does `dob` count as a birthday on `day`/`month`? -/
def birthdayMatch (day month : Nat) (monthName : String) (dob : String) : Bool :=
  if dob = "" then false
  else
    let dobLower := strToLower dob
    if (birthdayDatePatterns day month monthName).any
        (fun p => strIncludes dobLower (strToLower p)) then true
    else if strIncludes dobLower (strToLower (dayOrdinal day))
        && strIncludes dobLower (strToLower monthName) then true
    else false

/-! ## A JavaScript-faithful regular-expression engine

Syntax trees for the regex literals of `pdfParser.js`, and a backtracking
matcher with ECMAScript semantics: leftmost match, greedy/lazy quantifiers
with backtracking, ordered alternation, capture groups, `^`/`$` (with or
without the `m` flag), `\b`, and atomic lookahead.  Case-insensitive
literals encode the `i` flag.  Recursion is bounded by a fuel parameter;
the fuel supplied by the entry points exceeds the depth any of the embedded
patterns can reach on the inputs considered. -/

inductive RE where
  | eps : RE
  | cls : (Char → Bool) → RE
  | cat : RE → RE → RE
  | alt : RE → RE → RE
  | grp : Nat → RE → RE
  | quant : Nat → Option Nat → Bool → RE → RE
  | bol : Bool → RE
  | eol : Bool → RE
  | wordb : RE
  | look : RE → RE

/-- Capture-group assignments: group index paired with captured characters.
The most recent assignment for a group comes first. -/
abbrev Caps := List (Nat × List Char)

def capGet (caps : Caps) (n : Nat) : Option (List Char) :=
  (caps.find? (fun p => p.1 = n)).map (fun p => p.2)

/-- Matcher state: `left` is the consumed input, most recent character
first (so `left.head?` is the character just before the current position);
`right` is the remaining input. -/
structure MState where
  left : List Char
  right : List Char
  caps : Caps

/-- The backtracking matcher, in continuation-passing style: `k` receives
the state after `re` and may itself fail, causing backtracking into `re`'s
remaining alternatives. -/
def mrun : Nat → RE → List Char → List Char → Caps →
    (List Char → List Char → Caps → Option MState) → Option MState
  | 0, _, _, _, _, _ => none
  | fuel + 1, re, left, right, caps, k =>
    match re with
    | .eps => k left right caps
    | .cls p =>
      match right with
      | [] => none
      | c :: rest => if p c then k (c :: left) rest caps else none
    | .cat a b => mrun fuel a left right caps (fun l r c => mrun fuel b l r c k)
    | .alt a b =>
      (mrun fuel a left right caps k).orElse (fun _ => mrun fuel b left right caps k)
    | .grp n r =>
      mrun fuel r left right caps
        (fun l r' c => k l r' ((n, (l.take (l.length - left.length)).reverse) :: c))
    | .quant lo hi lazy r =>
      if lo ≠ 0 then
        mrun fuel r left right caps
          (fun l r' c => mrun fuel (.quant (lo - 1) (hi.map (fun n => n - 1)) lazy r) l r' c k)
      else
        match hi with
        | some 0 => k left right caps
        | _ =>
          let him1 := hi.map (fun n => n - 1)
          let more := fun (_ : Unit) => mrun fuel r left right caps
            (fun l r' c =>
              if r'.length < right.length then mrun fuel (.quant 0 him1 lazy r) l r' c k
              else k l r' c)
          if lazy then (k left right caps).orElse more
          else (more ()).orElse (fun _ => k left right caps)
    | .bol ml =>
      if left.isEmpty || (ml && left.head? = some '\n') then k left right caps else none
    | .eol ml =>
      if right.isEmpty || (ml && right.head? = some '\n') then k left right caps else none
    | .wordb =>
      let lw := match left.head? with | some c => isWordC c | none => false
      let rw := match right.head? with | some c => isWordC c | none => false
      if lw != rw then k left right caps else none
    | .look r =>
      match mrun fuel r left right caps (fun l r' c => some ⟨l, r', c⟩) with
      | some _ => k left right caps
      | none => none

/-- Attempt a match of `re` exactly at the current position. -/
def matchAtt (fuel : Nat) (re : RE) (left right : List Char) : Option MState :=
  mrun fuel re left right [] (fun l r c => some ⟨l, r, c⟩)

/-- A successful search: match index (relative to the search start), the
matched characters, the captures, the input after the match, and the
consumed input through the end of the match (reversed). -/
structure MRes where
  idx : Nat
  matched : List Char
  caps : Caps
  rest : List Char
  pre : List Char

def searchFromAux (fuel : Nat) (re : RE) : List Char → List Char → Nat → Option MRes
  | left, [], idx =>
    (matchAtt fuel re left []).map
      (fun st => ⟨idx, (st.left.take (st.left.length - left.length)).reverse, st.caps,
        st.right, st.left⟩)
  | left, c :: rest, idx =>
    match matchAtt fuel re left (c :: rest) with
    | some st =>
      some ⟨idx, (st.left.take (st.left.length - left.length)).reverse, st.caps,
        st.right, st.left⟩
    | none => searchFromAux fuel re (c :: left) rest (idx + 1)

def fuelFor (text : List Char) : Nat := 2000 + 200 * text.length

/-- Leftmost match of `re` in `text` (the behaviour of `regex.exec` with
`lastIndex` 0 and of `String.prototype.match` without the `g` flag). -/
def jsSearch (re : RE) (text : List Char) : Option MRes :=
  searchFromAux (fuelFor text) re [] text 0

def jsTest (re : RE) (text : List Char) : Bool := (jsSearch re text).isSome

/-- All matches, as in `String.prototype.match` with the `g` flag: repeated
leftmost search, resuming after each match (one character further on an
empty match). -/
def matchAllAux (fuel : Nat) (re : RE) : Nat → List Char → List Char → List (List Char)
  | 0, _, _ => []
  | n + 1, left, right =>
    match searchFromAux fuel re left right 0 with
    | none => []
    | some res =>
      if res.matched.isEmpty then
        match res.rest with
        | [] => [res.matched]
        | c :: rest' => res.matched :: matchAllAux fuel re n (c :: res.pre) rest'
      else res.matched :: matchAllAux fuel re n res.pre res.rest

def jsMatchAll (re : RE) (text : List Char) : List (List Char) :=
  matchAllAux (fuelFor text) re (text.length + 1) [] text

/-- Highest capture-group index occurring in a pattern. -/
def maxGrp : RE → Nat
  | .eps => 0
  | .cls _ => 0
  | .cat a b => max (maxGrp a) (maxGrp b)
  | .alt a b => max (maxGrp a) (maxGrp b)
  | .grp n r => max n (maxGrp r)
  | .quant _ _ _ r => maxGrp r
  | .bol _ => 0
  | .eol _ => 0
  | .wordb => 0
  | .look r => maxGrp r

/-- `String.prototype.match(re)`, as the array JavaScript produces:
with the `g` flag, the list of full matches (`none` when there is no
match); without it, `[full, group1, …]` where an unmatched group is
`none` (JavaScript's `undefined`). -/
def jsMatchArr (globalFlag : Bool) (re : RE) (text : List Char) :
    Option (List (Option (List Char))) :=
  if globalFlag then
    match jsMatchAll re text with
    | [] => none
    | ms => some (ms.map some)
  else
    (jsSearch re text).map (fun res =>
      some res.matched :: (List.range (maxGrp re)).map (fun i => capGet res.caps (i + 1)))

/-- JavaScript `arr[i]` on a match array: `none` is `undefined`. -/
def arrGet (arr : List (Option (List Char))) (i : Nat) : Option (List Char) :=
  (arr.get? i).join

/-- `String.prototype.replace(re, '')` with the `g` flag. -/
def jsReplaceAllAux (fuel : Nat) (re : RE) : Nat → List Char → List Char → List Char
  | 0, _, right => right
  | n + 1, left, right =>
    match searchFromAux fuel re left right 0 with
    | none => right
    | some res =>
      if res.matched.isEmpty then
        match res.rest with
        | [] => right.take res.idx
        | c :: rest' => right.take res.idx ++ c :: jsReplaceAllAux fuel re n (c :: res.pre) rest'
      else right.take res.idx ++ jsReplaceAllAux fuel re n res.pre res.rest

def jsDeleteAll (re : RE) (text : List Char) : List Char :=
  jsReplaceAllAux (fuelFor text) re (text.length + 1) [] text

/-- `String.prototype.replace(re, '')` without the `g` flag. -/
def jsDeleteFirst (re : RE) (text : List Char) : List Char :=
  match jsSearch re text with
  | none => text
  | some res => text.take res.idx ++ res.rest

/-! ### Combinators used to transcribe the regex literals -/

def rcat (l : List RE) : RE := l.foldr RE.cat RE.eps

def ralt : List RE → RE
  | [] => RE.cls (fun _ => false)
  | [r] => r
  | r :: rs => RE.alt r (ralt rs)

/-- A case-insensitive literal (a string under the `i` flag). -/
def lci (s : String) : RE := rcat (s.data.map (fun c => RE.cls (fun x => x.toLower = c.toLower)))

/-- A case-sensitive literal. -/
def lex (s : String) : RE := rcat (s.data.map (fun c => RE.cls (fun x => x = c)))

def ropt (r : RE) : RE := RE.quant 0 (some 1) false r

def rstar (r : RE) : RE := RE.quant 0 none false r

def rplus (r : RE) : RE := RE.quant 1 none false r

def rrep (lo hi : Nat) (r : RE) : RE := RE.quant lo (some hi) false r

def rmin (lo : Nat) (r : RE) : RE := RE.quant lo none false r

def rdigit : RE := RE.cls isDigitC

def rws : RE := RE.cls isWsC

def wsStar : RE := rstar rws

def wsPlus : RE := rplus rws

def alnum : RE := RE.cls (fun c => isAlphaC c || isDigitC c)

/-- `a || b` on character lists (JavaScript falsiness of `''`/`undefined`). -/
def jsOrL (a b : List Char) : List Char := if a.isEmpty then b else a

/-! ## `extractResumeData` (src/services/pdfParser.js)

Each `EXTRACT …` section of the source becomes one Lean function; the
regex literals keep their position and order.  `originalText` is the raw
text, `lines` the trimmed non-empty lines. -/

/-- `originalText.split(/\r?\n/).map(l => l.trim()).filter(l => l.length > 0)` -/
def linesOf (text : List Char) : List (List Char) :=
  ((splitLinesL text).map trimL).filter (fun l => decide (0 < l.length))

/-! ### Name extraction -/

def notNL : RE := RE.cls (fun c => !(c = '\n' || c = '\r'))

/-- `/(?:^|\n)\s*name\s*[:]\s*([^\n\r]+)/i` -/
def nameP1a : RE := rcat [ralt [RE.bol false, lex "\n"], wsStar, lci "name", wsStar, lex ":",
  wsStar, RE.grp 1 (rplus notNL)]

/-- `/(?:^|\n)\s*full\s*name\s*[:]\s*([^\n\r]+)/i` -/
def nameP1b : RE := rcat [ralt [RE.bol false, lex "\n"], wsStar, lci "full", wsStar, lci "name",
  wsStar, lex ":", wsStar, RE.grp 1 (rplus notNL)]

/-- `/name\s*[:]\s*([A-Za-z\s]+)/i` -/
def nameP1c : RE := rcat [lci "name", wsStar, lex ":", wsStar,
  RE.grp 1 (rplus (RE.cls (fun c => isAlphaC c || isWsC c)))]

/-- `/full\s*name\s*[:]\s*([A-Za-z\s]+)/i` -/
def nameP1d : RE := rcat [lci "full", wsStar, lci "name", wsStar, lex ":", wsStar,
  RE.grp 1 (rplus (RE.cls (fun c => isAlphaC c || isWsC c)))]

def namePatterns1 : List RE := [nameP1a, nameP1b, nameP1c, nameP1d]

/-- Strategy 1: the `for (const pattern of namePatterns1)` loop; first
pattern with a truthy `match[1]` wins and its value is trimmed. -/
def nameStrat1 (text : List Char) : Option (List Char) :=
  firstSome namePatterns1 (fun p =>
    match jsMatchArr false p text with
    | some arr =>
      match arrGet arr 1 with
      | some g => if g.isEmpty then none else some (trimL g)
      | none => none
    | none => none)

/-- `/^[A-Z]+$/` -/
def upperOnly : RE := rcat [RE.bol false, rplus (RE.cls isUpperC), RE.eol false]

/-- `/^([A-Z]{3,})([A-Z]{3,})$/` -/
def splitPat : RE := rcat [RE.bol false, RE.grp 1 (rmin 3 (RE.cls isUpperC)),
  RE.grp 2 (rmin 3 (RE.cls isUpperC)), RE.eol false]

/-- Strategy 2: all-caps first line, split `"DANISHALI"`-style when possible. -/
def nameStrat2 (ls : List (List Char)) : Option (List Char) :=
  match ls with
  | [] => none
  | firstLine :: _ =>
    if firstLine = upperL firstLine
        && jsTest upperOnly (jsDeleteAll (RE.cls isWsC) firstLine) then
      if 5 < firstLine.length && firstLine.length < 30 then
        match jsMatchArr false splitPat firstLine with
        | some arr => some ((arrGet arr 1).getD [] ++ ' ' :: (arrGet arr 2).getD [])
        | none => some firstLine
      else none
    else none

/-- `/^[A-Z\s]+$/` -/
def upperWsOnly : RE := rcat [RE.bol false,
  rplus (RE.cls (fun c => isUpperC c || isWsC c)), RE.eol false]

/-- Strategy 2b: all-caps 2–4-word line within the first 5 lines. -/
def nameStrat2b (ls : List (List Char)) : Option (List Char) :=
  firstSome (ls.take 5) (fun line =>
    if line = upperL line && 5 < line.length && line.length < 50 then
      let words := splitWsL line
      if 2 ≤ words.length && words.length ≤ 4 && jsTest upperWsOnly line then some line
      else none
    else none)

/-- `/^[A-Z]/` -/
def startsUpper : RE := rcat [RE.bol false, RE.cls isUpperC]

/-- `/^[A-Za-z]+$/` -/
def alphaOnly : RE := rcat [RE.bol false, rplus (RE.cls isAlphaC), RE.eol false]

/-- `/^[A-Za-z\s]+$/` -/
def alphaWsOnly : RE := rcat [RE.bol false,
  rplus (RE.cls (fun c => isAlphaC c || isWsC c)), RE.eol false]

/-- Strategy 3: a 2–4-word capitalized line within the first 10 lines. -/
def nameStrat3 (ls : List (List Char)) : Option (List Char) :=
  firstSome (ls.take 10) (fun line =>
    let words := splitWsL line
    if 2 ≤ words.length && words.length ≤ 4 then
      if words.all (fun w => decide (0 < w.length) && jsTest startsUpper w && jsTest alphaOnly w)
          && jsTest alphaWsOnly line then some line
      else none
    else none)

/-- `/^([A-Z][a-z]+\s+[A-Z][a-z]+(?:\s+[A-Z][a-z]+)?)/m` -/
def namePattern4 : RE := rcat [RE.bol true, RE.grp 1 (rcat [RE.cls isUpperC,
  rplus (RE.cls isLowerC), wsPlus, RE.cls isUpperC, rplus (RE.cls isLowerC),
  ropt (rcat [wsPlus, RE.cls isUpperC, rplus (RE.cls isLowerC)])])]

/-- Strategy 4: "First Last" anywhere (multiline start anchor). -/
def nameStrat4 (text : List Char) : Option (List Char) :=
  match jsMatchArr false namePattern4 text with
  | some arr =>
    match arrGet arr 1 with
    | some g => if g.isEmpty then none else some (trimL g)
    | none => none
  | none => none

/-- The name cascade: each later strategy runs only while `data.name` is
still falsy (`if (!data.name)` in the source). -/
def extractName (text : List Char) (ls : List (List Char)) : List Char :=
  let n1 := (nameStrat1 text).getD []
  let n2 := if n1.isEmpty then (nameStrat2 ls).getD [] else n1
  let n2b := if n2.isEmpty then (nameStrat2b ls).getD [] else n2
  let n3 := if n2b.isEmpty then (nameStrat3 ls).getD [] else n2b
  if n3.isEmpty then (nameStrat4 text).getD [] else n3

/-! ### Email extraction -/

/-- `/\b[a-zA-Z0-9](?:[a-zA-Z0-9._-]*[a-zA-Z0-9])?@[a-zA-Z0-9](?:[a-zA-Z0-9.-]*[a-zA-Z0-9])?\.[a-zA-Z]{2,}\b/g` -/
def emailRegex : RE := rcat [RE.wordb, alnum,
  ropt (rcat [rstar (RE.cls (fun c => isAlphaC c || isDigitC c || c = '.' || c = '_' || c = '-')),
    alnum]),
  lex "@", alnum,
  ropt (rcat [rstar (RE.cls (fun c => isAlphaC c || isDigitC c || c = '.' || c = '-')), alnum]),
  lex ".", rmin 2 (RE.cls isAlphaC), RE.wordb]

/-- The placeholder domains of the `falsePositives` array. -/
def falsePositives : List String := ["example.com", "email.com", "test.com", "domain.com"]

/-- The filter applied to the primary scan's candidates:
`!falsePositives.some(fp => domain.includes(fp))` with
`domain = email.split('@')[1]`. -/
def emailKeep (email : List Char) : Bool :=
  let domain := ((splitCharL '@' email).get? 1).getD []
  !(falsePositives.any (fun fp => containsL domain fp.data))

/-- `/(?:email|e-mail|mail)\s*[:]\s*([a-zA-Z0-9._%+-]+@[a-zA-Z0-9.-]+\.[a-zA-Z]{2,})/gi` -/
def emailLabelled (sep : Char) : RE := rcat [ralt [lci "email", lci "e-mail", lci "mail"],
  wsStar, RE.cls (fun c => c = sep), wsStar,
  RE.grp 1 (rcat [rplus (RE.cls (fun c => isAlphaC c || isDigitC c || c = '.' || c = '_'
      || c = '%' || c = '+' || c = '-')),
    lex "@", rplus (RE.cls (fun c => isAlphaC c || isDigitC c || c = '.' || c = '-')),
    lex ".", rmin 2 (RE.cls isAlphaC)])]

/-- The email section: primary scan with false-positive filter, then the
labelled fallback patterns. -/
def extractEmail (text : List Char) : List Char :=
  let ms := jsMatchAll emailRegex text
  let primary :=
    if ms.isEmpty then []
    else
      match (ms.map (fun e => trimL (lowerL e))).filter emailKeep with
      | e :: _ => e
      | [] => []
  if !primary.isEmpty then primary
  else
    ((firstSome [emailLabelled ':', emailLabelled '='] (fun p =>
      match jsMatchAll p text with
      | [] => none
      | fullMs => firstSome fullMs (fun m =>
        match jsMatchAll emailRegex m with
        | e :: _ => some (trimL (lowerL e))
        | [] => none))).getD [])

/-! ### Contact-number extraction -/

/-- `[-.\s]?` -/
def sepOpt : RE := ropt (RE.cls (fun c => c = '-' || c = '.' || isWsC c))

/-- `/\+?\d{1,4}[-.\s]?\(?\d{1,4}\)?[-.\s]?\d{1,4}[-.\s]?\d{1,4}[-.\s]?\d{1,9}/g` -/
def phoneP1 : RE := rcat [ropt (lex "+"), rrep 1 4 rdigit, sepOpt, ropt (lex "("),
  rrep 1 4 rdigit, ropt (lex ")"), sepOpt, rrep 1 4 rdigit, sepOpt, rrep 1 4 rdigit,
  sepOpt, rrep 1 9 rdigit]

/-- `/\(?\d{3}\)?[-.\s]?\d{3}[-.\s]?\d{4}/g` -/
def phoneP2 : RE := rcat [ropt (lex "("), rrep 3 3 rdigit, ropt (lex ")"), sepOpt,
  rrep 3 3 rdigit, sepOpt, rrep 4 4 rdigit]

/-- `/\+?91[-.\s]?\d{5}[-.\s]?\d{5}/g` -/
def phoneP3 : RE := rcat [ropt (lex "+"), lex "91", sepOpt, rrep 5 5 rdigit, sepOpt,
  rrep 5 5 rdigit]

/-- `/\b\d{10,15}\b/g` -/
def phoneP4 : RE := rcat [RE.wordb, RE.quant 10 (some 15) false rdigit, RE.wordb]

/-- `/\d{3,4}\s+\d{3,4}\s+\d{3,4}/g` -/
def phoneP5 : RE := rcat [rrep 3 4 rdigit, wsPlus, rrep 3 4 rdigit, wsPlus, rrep 3 4 rdigit]

def phonePatterns : List RE := [phoneP1, phoneP2, phoneP3, phoneP4, phoneP5]

/-- `[+\d\s\-().]` -/
def phoneCls : RE := RE.cls (fun c => c = '+' || isDigitC c || isWsC c || c = '-'
  || c = '(' || c = ')' || c = '.')

/-- `/(?:phone|mobile|contact|tel|telephone|cell|mob|whatsapp)\s*[:=]?\s*([+\d\s\-().]+)/gi` -/
def phoneLblP1 : RE := rcat [ralt [lci "phone", lci "mobile", lci "contact", lci "tel",
  lci "telephone", lci "cell", lci "mob", lci "whatsapp"], wsStar,
  ropt (RE.cls (fun c => c = ':' || c = '=')), wsStar, RE.grp 1 (rplus phoneCls)]

/-- `/(?:ph|mob|tel)\s*[:=]?\s*([+\d\s\-().]+)/gi` -/
def phoneLblP2 : RE := rcat [ralt [lci "ph", lci "mob", lci "tel"], wsStar,
  ropt (RE.cls (fun c => c = ':' || c = '=')), wsStar, RE.grp 1 (rplus phoneCls)]

/-- `match.replace(/[^\d+]/g, '')`: global deletion of every match of the
single-character class `[^\d+]` keeps exactly the characters in `[\d+]`. -/
def cleanPhone (s : List Char) : List Char :=
  s.filter (fun c => isDigitC c || c = '+')

/-- The labelled tier: first label match whose `[+\d\s\-().]+` part cleans
to 10–15 characters. -/
def phoneLabelled (text : List Char) : Option (List Char) :=
  firstSome [phoneLblP1, phoneLblP2] (fun p =>
    match jsMatchAll p text with
    | [] => none
    | ms => firstSome ms (fun m =>
      match jsSearch (rplus phoneCls) m with
      | some res =>
        let cleaned := cleanPhone res.matched
        if 10 ≤ cleaned.length && cleaned.length ≤ 15 then some cleaned else none
      | none => none))

/-- `/^[12]\d{3}$/` -/
def yearShape : RE := rcat [RE.bol false, RE.cls (fun c => c = '1' || c = '2'),
  rrep 3 3 rdigit, RE.eol false]

/-- The standalone tier, including the year skip (dead under the 10–15
gate, kept from the source) and the email-adjacency skip, which looks at
the five characters on each side of the **first** occurrence
(`originalText.indexOf(match)`) of the matched string. -/
def phoneStandalone (text : List Char) : Option (List Char) :=
  firstSome phonePatterns (fun p =>
    match jsMatchAll p text with
    | [] => none
    | ms => firstSome ms (fun m =>
      let cleaned := cleanPhone m
      if 10 ≤ cleaned.length && cleaned.length ≤ 15 then
        if cleaned.length = 4 && jsTest yearShape cleaned then none
        else
          let idx := (indexOfL text m).getD 0
          let beforeM := substringL text (idx - 5) idx
          let afterM := substringL text (idx + m.length) (min text.length (idx + m.length + 5))
          if containsL beforeM ['@'] || containsL afterM ['@']
              || (containsL beforeM ['.'] && containsL afterM ['.']) then none
          else some cleaned
      else none))

/-- The contact section: labelled tier first, then standalone. -/
def extractContact (text : List Char) : List Char :=
  match phoneLabelled text with
  | some c => c
  | none => (phoneStandalone text).getD []

/-! ### Date-of-birth extraction -/

/-- `[\/\-\.]` -/
def dsep : RE := RE.cls (fun c => c = '/' || c = '-' || c = '.')

/-- `[:\-=—–]` (colon, dash, equals, em dash, en dash) -/
def dobSep : RE := RE.cls (fun c => c = ':' || c = '-' || c = '=' || c = '—' || c = '–')

/-- `(?:date\s*of\s*birth|dob|d\.o\.b\.|birth\s*date|born|birth)` -/
def dobLabel : RE := ralt [rcat [lci "date", wsStar, lci "of", wsStar, lci "birth"],
  lci "dob", lci "d.o.b.", rcat [lci "birth", wsStar, lci "date"], lci "born", lci "birth"]

/-- `([0-9]{1,2}[\/\-\.][0-9]{1,2}[\/\-\.][0-9]{2,4})` -/
def numDate : RE := rcat [rrep 1 2 rdigit, dsep, rrep 1 2 rdigit, dsep, rrep 2 4 rdigit]

def dobP1 : RE := rcat [dobLabel, wsStar, ropt dobSep, wsStar, RE.grp 1 numDate]

/-- `([A-Za-z]+\s+\d{1,2},?\s+\d{4})` -/
def dobP2 : RE := rcat [dobLabel, wsStar, ropt dobSep, wsStar,
  RE.grp 1 (rcat [rplus (RE.cls isAlphaC), wsPlus, rrep 1 2 rdigit, ropt (lex ","),
    wsPlus, rrep 4 4 rdigit])]

/-- `/[a-z]?(?:dob|birth|born)\s*[:\-=—–]?\s*(…numeric date…)/gi`
(`[a-z]` under the `i` flag matches any letter). -/
def dobP3 : RE := rcat [ropt (RE.cls isAlphaC), ralt [lci "dob", lci "birth", lci "born"],
  wsStar, ropt dobSep, wsStar, RE.grp 1 numDate]

/-- `(0?[1-9]|[12][0-9]|3[01])` -/
def dayAlt : RE := ralt [rcat [ropt (lex "0"), RE.cls (fun c => '1' ≤ c && c ≤ '9')],
  rcat [RE.cls (fun c => c = '1' || c = '2'), rdigit],
  rcat [lex "3", RE.cls (fun c => c = '0' || c = '1')]]

/-- `(0?[1-9]|1[0-2])` -/
def monAlt : RE := ralt [rcat [ropt (lex "0"), RE.cls (fun c => '1' ≤ c && c ≤ '9')],
  rcat [lex "1", RE.cls (fun c => c = '0' || c = '1' || c = '2')]]

/-- `(19[4-9]\d|200[0-9]|201[0-5])` -/
def yrAlt : RE := ralt [rcat [lex "19", RE.cls (fun c => '4' ≤ c && c ≤ '9'), rdigit],
  rcat [lex "200", rdigit], rcat [lex "201", RE.cls (fun c => '0' ≤ c && c ≤ '5')]]

/-- The bare-date fallback
`/\b(0?[1-9]|[12][0-9]|3[01])[\/\-\.](0?[1-9]|1[0-2])[\/\-\.](19[4-9]\d|200[0-9]|201[0-5])\b/g` -/
def datePat : RE := rcat [RE.wordb, RE.grp 1 dayAlt, dsep, RE.grp 2 monAlt, dsep,
  RE.grp 3 yrAlt, RE.wordb]

/-- The labelled DOB tiers: `for (const pattern of dobPatterns)` with
`exec` after a `lastIndex` reset (so: first match), taking
`(match[1] || match[0]).trim()` when truthy. -/
def dobLabelledTier (text : List Char) : Option (List Char) :=
  firstSome [dobP1, dobP2, dobP3] (fun p =>
    match jsSearch p text with
    | some res =>
      let v := jsOrL ((capGet res.caps 1).getD []) res.matched
      if v.isEmpty then none else some (trimL v)
    | none => none)

/-- The DOB section: labelled tiers, then the year-range fallback taking
`dateMatches[0].trim()`. -/
def extractDOB (text : List Char) : List Char :=
  match dobLabelledTier text with
  | some d => d
  | none =>
    match jsMatchAll datePat text with
    | m :: _ => trimL m
    | [] => []

/-! ### Experience extraction -/

/-- `([0-9]+(?:\.[0-9]+)?)` -/
def numRe : RE := rcat [rplus rdigit, ropt (rcat [lex ".", rplus rdigit])]

/-- `(?:years?|yrs?|yr)` -/
def yrsAlt : RE := ralt [rcat [lci "year", ropt (lci "s")], rcat [lci "yr", ropt (lci "s")],
  lci "yr"]

/-- `(?:experience|exp|total\s*experience|years?\s*of\s*experience|work\s*experience)` -/
def expLabel : RE := ralt [lci "experience", lci "exp",
  rcat [lci "total", wsStar, lci "experience"],
  rcat [lci "year", ropt (lci "s"), wsStar, lci "of", wsStar, lci "experience"],
  rcat [lci "work", wsStar, lci "experience"]]

def expP1 : RE := rcat [expLabel, wsStar, ropt (lex ":"), wsStar, RE.grp 1 numRe,
  wsStar, yrsAlt]

def expP2 : RE := rcat [RE.grp 1 numRe, wsStar, yrsAlt, wsStar,
  ropt (rcat [lci "of", wsStar]), ralt [lci "experience", lci "exp"]]

def expP3 : RE := rcat [ralt [lci "experience", lci "exp"], wsStar, ropt (lex ":"), wsStar,
  RE.grp 1 numRe, wsStar, yrsAlt]

/-- The experience section: first pattern whose global match is non-null;
the number is re-extracted from `match[0]` and formatted `"<n> years"`. -/
def extractExperience (text : List Char) : List Char :=
  (firstSome [expP1, expP2, expP3] (fun p =>
    match jsMatchAll p text with
    | [] => none
    | m :: _ =>
      match jsSearch (RE.grp 1 numRe) m with
      | some res =>
        match capGet res.caps 1 with
        | some g => some (g ++ (" years".data))
        | none => none
      | none => none)).getD []

/-! ### Role extraction -/

/-- `(?:current\s*role|position|job\s*title|designation|role|title)` -/
def roleLabel : RE := ralt [rcat [lci "current", wsStar, lci "role"], lci "position",
  rcat [lci "job", wsStar, lci "title"], lci "designation", lci "role", lci "title"]

/-- `(?:engineer|developer|scientist|analyst|manager|architect|specialist|consultant|lead|senior|junior|associate)` -/
def roleNoun : RE := ralt [lci "engineer", lci "developer", lci "scientist", lci "analyst",
  lci "manager", lci "architect", lci "specialist", lci "consultant", lci "lead",
  lci "senior", lci "junior", lci "associate"]

def roleP1 : RE := rcat [roleLabel, wsStar, ropt (lex ":"), wsStar,
  RE.grp 1 (rcat [rplus (RE.cls (fun c => isAlphaC c || isWsC c || c = '&')), roleNoun])]

/-- `/(?:software\s*engineer|data\s*scientist|full\s*stack|frontend|backend|devops|ml\s*engineer|ai\s*engineer|web\s*developer|mobile\s*developer)/gi` -/
def roleP2 : RE := ralt [rcat [lci "software", wsStar, lci "engineer"],
  rcat [lci "data", wsStar, lci "scientist"], rcat [lci "full", wsStar, lci "stack"],
  lci "frontend", lci "backend", lci "devops", rcat [lci "ml", wsStar, lci "engineer"],
  rcat [lci "ai", wsStar, lci "engineer"], rcat [lci "web", wsStar, lci "developer"],
  rcat [lci "mobile", wsStar, lci "developer"]]

/-- `/(?:senior|junior|lead|principal)\s*(?:software\s*)?(?:engineer|developer|scientist|analyst|architect)/gi` -/
def roleP3 : RE := rcat [ralt [lci "senior", lci "junior", lci "lead", lci "principal"],
  wsStar, ropt (rcat [lci "software", wsStar]),
  ralt [lci "engineer", lci "developer", lci "scientist", lci "analyst", lci "architect"]]

/-- The label prefix stripped from the first match:
`.replace(/(?:current\s*role|position|job\s*title|designation|role|title)\s*[:]?\s*/gi, '')` -/
def roleStrip : RE := rcat [roleLabel, wsStar, ropt (lex ":"), wsStar]

/-- `word.charAt(0).toUpperCase() + word.slice(1).toLowerCase()` -/
def capitalizeWord (w : List Char) : List Char :=
  match w with
  | [] => []
  | c :: t => Char.toUpper c :: lowerL t

def joinWith (sep : List Char) : List (List Char) → List Char
  | [] => []
  | [w] => w
  | w :: ws => w ++ sep ++ joinWith sep ws

/-- Role tier 1: explicit label patterns, label stripped, title-cased via
`role.split(' ')`. -/
def roleTier1 (text : List Char) : Option (List Char) :=
  firstSome [roleP1, roleP2, roleP3] (fun p =>
    match jsMatchAll p text with
    | [] => none
    | m :: _ =>
      let role := trimL (jsDeleteAll roleStrip m)
      if 3 < role.length && role.length < 50 then
        some (joinWith [' '] ((splitCharL ' ' role).map capitalizeWord))
      else none)

/-- The `commonRoles` array. -/
def commonRoles : List String :=
  ["Software Engineer", "Software Developer", "Full Stack Developer",
   "Frontend Developer", "Backend Developer", "Data Scientist",
   "Data Analyst", "ML Engineer", "AI Engineer", "DevOps Engineer",
   "Mobile Developer", "Web Developer", "System Architect",
   "Product Manager", "Project Manager", "Tech Lead", "Senior Engineer",
   "Junior Engineer", "Associate Engineer"]

/-- Role tier 2: `textLower.substring(0, 2000).includes(roleLower)`. -/
def roleTier2 (text : List Char) : Option (List Char) :=
  let textLower := lowerL text
  firstSome commonRoles (fun cr =>
    if containsL (textLower.take 2000) (lowerL cr.data) then some cr.data else none)

/-- The `for (const word of words)` collection loop of role tier 3. -/
def roleWordsLoop : List (List Char) → List (List Char) → List (List Char)
  | [], acc => acc.reverse
  | w :: ws, acc =>
    if 2 < w.length && jsTest alphaOnly w then
      if containsL (lowerL w) ("engineer".data) || containsL (lowerL w) ("developer".data)
          || containsL (lowerL w) ("scientist".data) || containsL (lowerL w) ("analyst".data)
      then (w :: acc).reverse
      else roleWordsLoop ws (w :: acc)
    else roleWordsLoop ws acc

/-- Role tier 3: keyword scan of the first 15 lines. -/
def roleTier3 (ls : List (List Char)) : Option (List Char) :=
  firstSome (ls.take 15) (fun line =>
    let low := lowerL line
    if containsL low ("engineer".data) || containsL low ("developer".data)
        || containsL low ("scientist".data) || containsL low ("analyst".data)
        || containsL low ("architect".data) || containsL low ("manager".data) then
      let roleWords := roleWordsLoop (splitWsL line) []
      if 0 < roleWords.length && roleWords.length < 5 then some (joinWith [' '] roleWords)
      else none
    else none)

def extractRole (text : List Char) (ls : List (List Char)) : List Char :=
  match roleTier1 text with
  | some r => r
  | none =>
    match roleTier2 text with
    | some r => r
    | none => (roleTier3 ls).getD []

/-! ### Location extraction -/

/-- `/(?:location|address|city|residence|residing\s*at|place|native)\s*[:\-=]?\s*([A-Za-z\s,]+(?:,\s*[A-Za-z\s]+){0,3})/gi` -/
def locP1 : RE := rcat [ralt [lci "location", lci "address", lci "city", lci "residence",
  rcat [lci "residing", wsStar, lci "at"], lci "place", lci "native"], wsStar,
  ropt (RE.cls (fun c => c = ':' || c = '-' || c = '=')), wsStar,
  RE.grp 1 (rcat [rplus (RE.cls (fun c => isAlphaC c || isWsC c || c = ',')),
    RE.quant 0 (some 3) false
      (rcat [lex ",", wsStar, rplus (RE.cls (fun c => isAlphaC c || isWsC c))])])]

/-- `/(?:^|\n)\s*(?:lives\s*in|based\s*in|from|at)\s*([A-Za-z\s,]+)/i` -/
def locP2 : RE := rcat [ralt [RE.bol false, lex "\n"], wsStar,
  ralt [rcat [lci "lives", wsStar, lci "in"], rcat [lci "based", wsStar, lci "in"],
    lci "from", lci "at"], wsStar,
  RE.grp 1 (rplus (RE.cls (fun c => isAlphaC c || isWsC c || c = ',')))]

/-- `[A-Z][a-z]+` -/
def capWord : RE := rcat [RE.cls isUpperC, rplus (RE.cls isLowerC)]

/-- `/\b([A-Z][a-z]+(?:\s+[A-Z][a-z]+)*,\s*[A-Z][a-z]+(?:\s+[A-Z][a-z]+)*)\b/` -/
def locP3 : RE := rcat [RE.wordb, RE.grp 1 (rcat [capWord,
  rstar (rcat [wsPlus, capWord]), lex ",", wsStar, capWord,
  rstar (rcat [wsPlus, capWord])]), RE.wordb]

/-- The location loop.  `locP1` carries the `g` flag, so for it
`match[1]` is the **second full match** of the whole pattern; the other
two patterns are non-global and `match[1]` is the capture group. -/
def extractLocation (text : List Char) : List Char :=
  (firstSome [(true, locP1), (false, locP2), (false, locP3)] (fun pr =>
    match jsMatchArr pr.1 pr.2 text with
    | some arr =>
      match arrGet arr 1 with
      | some g =>
        if g.isEmpty then none
        else
          let loc := trimL g
          if 3 < loc.length && loc.length < 100
              && !containsL (lowerL loc) ("engineer".data)
              && !containsL (lowerL loc) ("developer".data) then some loc
          else none
      | none => none
    | none => none)).getD []

/-! ### Links extraction -/

/-- `[^\s\n\r,]` -/
def urlCls : RE := RE.cls (fun c => !(isWsC c || c = '\n' || c = '\r' || c = ','))

/-- `/(?:https?:\/\/)?(?:www\.)?linkedin\.com\/in\/[A-Za-z0-9_-]+/gi` -/
def linkedinP1 : RE := rcat [ropt (rcat [lci "http", ropt (lci "s"), lex "://"]),
  ropt (lci "www."), lci "linkedin.com/in/",
  rplus (RE.cls (fun c => isAlphaC c || isDigitC c || c = '_' || c = '-'))]

/-- `/(?:linkedin|lin)\s*[:\-=]?\s*([^\s\n\r,]+)/i` -/
def linkedinP2 : RE := rcat [ralt [lci "linkedin", lci "lin"], wsStar,
  ropt (RE.cls (fun c => c = ':' || c = '-' || c = '=')), wsStar, RE.grp 1 (rplus urlCls)]

/-- `.replace(/(?:linkedin|lin)\s*[:\-=]?\s*/i, '')` (non-global). -/
def linkedinStrip : RE := rcat [ralt [lci "linkedin", lci "lin"], wsStar,
  ropt (RE.cls (fun c => c = ':' || c = '-' || c = '=')), wsStar]

/-- The LinkedIn loop: normalize a `linkedin.com` link, or synthesize a
profile URL from a bare token (no `@`, no `.`), else try the next pattern. -/
def extractLinkedin (text : List Char) : List Char :=
  (firstSome [linkedinP1, linkedinP2] (fun p =>
    match jsSearch p text with
    | some res =>
      let raw := jsOrL ((capGet res.caps 1).getD []) res.matched
      let link := trimL (jsDeleteFirst linkedinStrip raw)
      if containsL link ("linkedin.com".data) then
        some (if isPrefixL ("http".data) link then link else ("https://".data) ++ link)
      else if 3 < link.length && !containsL link ['@'] && !containsL link ['.'] then
        some (("https://www.linkedin.com/in/".data) ++ link)
      else none
    | none => none)).getD []

/-- `/(?:https?:\/\/)?(?:www\.)?github\.com\/[A-Za-z0-9_-]+/gi` -/
def githubP1 : RE := rcat [ropt (rcat [lci "http", ropt (lci "s"), lex "://"]),
  ropt (lci "www."), lci "github.com/",
  rplus (RE.cls (fun c => isAlphaC c || isDigitC c || c = '_' || c = '-'))]

/-- `/(?:github|git)\s*[:\-=]?\s*([^\s\n\r,]+)/i` -/
def githubP2 : RE := rcat [ralt [lci "github", lci "git"], wsStar,
  ropt (RE.cls (fun c => c = ':' || c = '-' || c = '=')), wsStar, RE.grp 1 (rplus urlCls)]

/-- `.replace(/(?:github|git)\s*[:\-=]?\s*/i, '')` (non-global). -/
def githubStrip : RE := rcat [ralt [lci "github", lci "git"], wsStar,
  ropt (RE.cls (fun c => c = ':' || c = '-' || c = '=')), wsStar]

def extractGithub (text : List Char) : List Char :=
  (firstSome [githubP1, githubP2] (fun p =>
    match jsSearch p text with
    | some res =>
      let raw := jsOrL ((capGet res.caps 1).getD []) res.matched
      let link := trimL (jsDeleteFirst githubStrip raw)
      if containsL link ("github.com".data) then
        some (if isPrefixL ("http".data) link then link else ("https://".data) ++ link)
      else if 3 < link.length && !containsL link ['@'] && !containsL link ['.'] then
        some (("https://github.com/".data) ++ link)
      else none
    | none => none)).getD []

/-- `/(?:portfolio|website|personal\s*site|web)\s*[:\-=]?\s*(https?:\/\/[^\s\n\r,]+)/gi` -/
def portfolioPattern : RE := rcat [ralt [lci "portfolio", lci "website",
  rcat [lci "personal", wsStar, lci "site"], lci "web"], wsStar,
  ropt (RE.cls (fun c => c = ':' || c = '-' || c = '=')), wsStar,
  RE.grp 1 (rcat [lci "http", ropt (lci "s"), lex "://", rplus urlCls])]

/-- `originalText.match(portfolioPattern)` carries the `g` flag, so
`portfolioMatch[1] || portfolioMatch[0]` is the second full match when
there are two or more, else the first full match (label text included). -/
def extractPortfolio (text : List Char) : List Char :=
  match jsMatchArr true portfolioPattern text with
  | some arr => jsOrL ((arrGet arr 1).getD []) ((arrGet arr 0).getD [])
  | none => []

/-! ### Summary extraction -/

/-- `(?:summary|objective|professional\s*profile|about\s*me)` -/
def summaryLabel : RE := ralt [lci "summary", lci "objective",
  rcat [lci "professional", wsStar, lci "profile"], rcat [lci "about", wsStar, lci "me"]]

/-- The lookahead
`(?=\n\s*(?:experience|skills|education|projects|work|employment|certifications|languages|hobbies|personal|$))` -/
def sectionAhead : RE := RE.look (rcat [lex "\n", wsStar,
  ralt [lci "experience", lci "skills", lci "education", lci "projects", lci "work",
    lci "employment", lci "certifications", lci "languages", lci "hobbies",
    lci "personal", RE.eol false]])

def summaryP1 : RE := rcat [summaryLabel, wsStar,
  ropt (RE.cls (fun c => c = ':' || c = '-' || c = '=')), wsStar,
  RE.grp 1 (rcat [RE.quant 30 (some 1000) true (RE.cls (fun _ => true)), sectionAhead])]

/-- `/(?:summary|objective|profile)\s*[:\-=]?\s*([^\n\r]+(?:\n[^\n\r]+){1,5})/gi` -/
def summaryP2 : RE := rcat [ralt [lci "summary", lci "objective", lci "profile"], wsStar,
  ropt (RE.cls (fun c => c = ':' || c = '-' || c = '=')), wsStar,
  RE.grp 1 (rcat [rplus notNL, rrep 1 5 (rcat [lex "\n", rplus notNL])])]

/-- `.replace(/(?:summary|objective|professional\s*profile|about\s*me)\s*[:\-=]?\s*/gi, '')` -/
def summaryStrip : RE := rcat [summaryLabel, wsStar,
  ropt (RE.cls (fun c => c = ':' || c = '-' || c = '=')), wsStar]

def extractSummary (text : List Char) : List Char :=
  (firstSome [summaryP1, summaryP2] (fun p =>
    match jsSearch p text with
    | some res =>
      let v := jsOrL ((capGet res.caps 1).getD []) res.matched
      let summary := trimL (jsDeleteAll summaryStrip v)
      if 20 < summary.length then some summary else none
    | none => none)).getD []

/-! ### The assembled engine -/

structure Links where
  linkedin : String
  github : String
  portfolio : String
deriving DecidableEq, Repr

structure ResumeData where
  name : String
  email : String
  contactNumber : String
  dateOfBirth : String
  experience : String
  role : String
  location : String
  skills : List String
  education : String
  summary : String
  links : Links
deriving DecidableEq, Repr

/-- The `data` object as initialized at the top of `extractResumeData`. -/
def emptyResumeData : ResumeData :=
  { name := "", email := "", contactNumber := "", dateOfBirth := "", experience := "",
    role := "", location := "", skills := [], education := "", summary := "",
    links := { linkedin := "", github := "", portfolio := "" } }

/-- `extractResumeData(text)` of `src/services/pdfParser.js`.  The source
never assigns `skills` or `education`, so they keep their initial values;
empty input returns the initial `data` object unchanged. -/
def extractResumeData (text : String) : ResumeData :=
  if text.length = 0 then emptyResumeData
  else
    let t := text.data
    let ls := linesOf t
    { name := strOf (extractName t ls), email := strOf (extractEmail t),
      contactNumber := strOf (extractContact t), dateOfBirth := strOf (extractDOB t),
      experience := strOf (extractExperience t), role := strOf (extractRole t ls),
      location := strOf (extractLocation t), skills := [], education := "",
      summary := strOf (extractSummary t),
      links := { linkedin := strOf (extractLinkedin t), github := strOf (extractGithub t),
                 portfolio := strOf (extractPortfolio t) } }

/-- The well-formedness C4 grants a cleaned phone candidate: characters
from `[\d+]` only and length within the 10–15 gate. -/
def phoneOkL (c : List Char) : Prop :=
  c.all (fun ch => isDigitC ch || ch = '+') = true ∧ 10 ≤ c.length ∧ c.length ≤ 15

/-- The shape C4 claims for a non-empty `contactNumber`: decimal digits
with at most one `'+'`, which can only be the leading character, and
total length between 10 and 15. -/
def phoneClaimShape (s : String) : Bool :=
  (match s.data with
   | [] => false
   | c :: rest => (isDigitC c || c = '+') && rest.all isDigitC)
  && decide (10 ≤ s.length) && decide (s.length ≤ 15)

/-! ## Supporting lemmas -/

theorem firstSome_some {α β : Type} {l : List α} {f : α → Option β} {b : β}
    (h : firstSome l f = some b) : ∃ a ∈ l, f a = some b := by
  induction l with
  | nil => simp [firstSome] at h
  | cons a t ih =>
    rw [firstSome] at h
    cases hfa : f a with
    | some b' =>
      rw [hfa] at h
      exact ⟨a, List.mem_cons_self a t, by rw [hfa]; exact h⟩
    | none =>
      rw [hfa] at h
      obtain ⟨x, hx, hfx⟩ := ih h
      exact ⟨x, List.mem_cons_of_mem a hx, hfx⟩

theorem cleanPhone_all (s : List Char) :
    (cleanPhone s).all (fun ch => isDigitC ch || ch = '+') = true := by
  rw [cleanPhone, List.all_eq_true]
  intro x hx
  exact (List.mem_filter.mp hx).2

theorem phoneLabelled_ok {t c : List Char} (h : phoneLabelled t = some c) : phoneOkL c := by
  unfold phoneLabelled at h
  obtain ⟨p, _, hp⟩ := firstSome_some h
  cases hms : jsMatchAll p t with
  | nil => rw [hms] at hp; simp at hp
  | cons m ms =>
    rw [hms] at hp
    obtain ⟨m', _, hm⟩ := firstSome_some hp
    simp only at hm
    cases hs : jsSearch (rplus phoneCls) m' with
    | none => rw [hs] at hm; simp at hm
    | some res =>
      rw [hs] at hm
      simp only at hm
      split at hm
      case isTrue hcond =>
        cases hm
        refine ⟨cleanPhone_all _, ?_, ?_⟩
        · exact of_decide_eq_true (Bool.and_elim_left hcond)
        · exact of_decide_eq_true (Bool.and_elim_right hcond)
      case isFalse => simp at hm

theorem phoneStandalone_ok {t c : List Char} (h : phoneStandalone t = some c) : phoneOkL c := by
  unfold phoneStandalone at h
  obtain ⟨p, _, hp⟩ := firstSome_some h
  cases hms : jsMatchAll p t with
  | nil => rw [hms] at hp; simp at hp
  | cons m ms =>
    rw [hms] at hp
    obtain ⟨m', _, hm⟩ := firstSome_some hp
    simp only at hm
    split at hm
    case isTrue hcond =>
      split at hm
      case isTrue => simp at hm
      case isFalse =>
        split at hm
        case isTrue => simp at hm
        case isFalse =>
          cases hm
          refine ⟨cleanPhone_all _, ?_, ?_⟩
          · exact of_decide_eq_true (Bool.and_elim_left hcond)
          · exact of_decide_eq_true (Bool.and_elim_right hcond)
    case isFalse => simp at hm

theorem extractContact_ok (t : List Char) :
    extractContact t = [] ∨ phoneOkL (extractContact t) := by
  unfold extractContact
  cases hl : phoneLabelled t with
  | some c => exact Or.inr (phoneLabelled_ok hl)
  | none =>
    cases hs : phoneStandalone t with
    | some c => exact Or.inr (by simpa using phoneStandalone_ok hs)
    | none => exact Or.inl rfl

theorem nameStrat1_p1a (t g : List Char)
    (h : (jsMatchArr false nameP1a t).bind (fun arr => arrGet arr 1) = some g)
    (hg : g.isEmpty = false) :
    nameStrat1 t = some (trimL g) := by
  unfold nameStrat1 namePatterns1
  cases harr : jsMatchArr false nameP1a t with
  | none => rw [harr] at h; simp at h
  | some arr =>
    rw [harr] at h
    simp only [Option.some_bind] at h
    rw [firstSome]
    simp [harr, h, hg]

theorem extractName_of_strat1 (t : List Char) (ls : List (List Char)) (s : List Char)
    (h : nameStrat1 t = some s) (hs : s.isEmpty = false) :
    extractName t ls = s := by
  unfold extractName
  rw [h]
  simp [Option.getD, hs]

/-! ## The claims -/

/-- C1, counterexample: with today being day 4 of month 2 (February), the
date-of-birth string `"4/2/1995"` is **not** judged a birthday match — the
generated numeric patterns are all zero-padded (`"04/02"`, `"04-02"`, …),
no unpadded `"4/2"` form is produced, and the ordinal check needs `"4th"`. -/
theorem c1_claim_counterexample : birthdayMatch 4 2 "February" "4/2/1995" = false := by decide

/-- C1, amended: with today day 4, month 2 (monthName "February"), the DOB
strings `"04-02-90"`, `"4 february"` and `"february 4th"` are judged
birthday matches, while `"4/2/1995"` and `"14/2/1995"` are not. -/
theorem c1_amended :
    birthdayMatch 4 2 "February" "04-02-90" = true
    ∧ birthdayMatch 4 2 "February" "4 february" = true
    ∧ birthdayMatch 4 2 "February" "february 4th" = true
    ∧ birthdayMatch 4 2 "February" "4/2/1995" = false
    ∧ birthdayMatch 4 2 "February" "14/2/1995" = false := by
  refine ⟨by decide, by decide, by decide, by decide, by decide⟩

/-- C2, counterexample: an input that is exactly a 16-digit run does
**not** yield an empty `contactNumber` — the 16-digit match of the
international pattern fails the 10–15 gate, but the US-format pattern
`/\(?\d{3}\)?[-.\s]?\d{3}[-.\s]?\d{4}/` then matches the run's first
ten digits, which pass the gate and are accepted. -/
theorem c2_claim_counterexample :
    (extractResumeData "1234567890123456").contactNumber ≠ "" := by decide

/-- C2, amended: a bare 9-digit run is rejected (empty `contactNumber`),
bare 10- and 15-digit runs are accepted whole, and a bare 16-digit run
yields its first ten digits (via the US-format pattern) rather than being
rejected. -/
theorem c2_amended :
    (extractResumeData "123456789").contactNumber = ""
    ∧ (extractResumeData "1234567890").contactNumber = "1234567890"
    ∧ (extractResumeData "123456789012345").contactNumber = "123456789012345"
    ∧ (extractResumeData "1234567890123456").contactNumber = "1234567890" := by
  refine ⟨by decide, by decide, by decide, by decide⟩

/-- C3: `extractResumeData` is a total function into a record containing
every declared field (name, email, contactNumber, dateOfBirth, experience,
role, location, skills, education, summary, links.{linkedin, github,
portfolio}), so no input can raise or drop a key; `skills` and `education`
are never assigned and stay empty for every input; the empty input and a
fully garbled input return the all-empty profile. -/
theorem c3_total_defaults :
    (∀ text : String,
      (extractResumeData text).skills = [] ∧ (extractResumeData text).education = "")
    ∧ extractResumeData "" = emptyResumeData
    ∧ extractResumeData "zzz !!! ???" = emptyResumeData := by
  refine ⟨fun text => ?_, by decide, by decide⟩
  unfold extractResumeData
  split
  · exact ⟨rfl, rfl⟩
  · exact ⟨rfl, rfl⟩

/-- C4, counterexample: for the input `"phone: 123456+789012"` the
extracted `contactNumber` is `"123456+789012"` — non-empty, 13 characters,
but with a `'+'` in the middle: the cleaning step
`replace(/[^\d+]/g, '')` keeps every `'+'` wherever it occurs, so the
claimed digits-with-at-most-one-leading-plus shape fails. -/
theorem c4_claim_counterexample :
    (extractResumeData "phone: 123456+789012").contactNumber = "123456+789012"
    ∧ (extractResumeData "phone: 123456+789012").contactNumber ≠ ""
    ∧ phoneClaimShape ((extractResumeData "phone: 123456+789012").contactNumber) = false := by
  refine ⟨by decide, by decide, by decide⟩

/-- C4, amended: for every input text, a non-empty `contactNumber`
consists only of decimal digits and `'+'` characters (a `'+'` may occur
anywhere and more than once) and its length is between 10 and 15. -/
theorem c4_amended (text : String)
    (h : (extractResumeData text).contactNumber ≠ "") :
    (extractResumeData text).contactNumber.data.all (fun c => isDigitC c || c = '+') = true
    ∧ 10 ≤ (extractResumeData text).contactNumber.length
    ∧ (extractResumeData text).contactNumber.length ≤ 15 := by
  by_cases h0 : text.length = 0
  · exfalso
    apply h
    unfold extractResumeData
    rw [if_pos h0]
    rfl
  · have hc : (extractResumeData text).contactNumber = strOf (extractContact text.data) := by
      unfold extractResumeData
      rw [if_neg h0]
    rw [hc] at h ⊢
    rcases extractContact_ok text.data with he | hok
    · exact absurd (by rw [he]; rfl) h
    · obtain ⟨ha, h10, h15⟩ := hok
      exact ⟨ha, h10, h15⟩

/-- C4, witness: the amended statement applied at the concrete input
`"phone: 123456+789012"`. -/
theorem c4_amended_witness :
    (extractResumeData "phone: 123456+789012").contactNumber.data.all
      (fun c => isDigitC c || c = '+') = true
    ∧ 10 ≤ (extractResumeData "phone: 123456+789012").contactNumber.length
    ∧ (extractResumeData "phone: 123456+789012").contactNumber.length ≤ 15 :=
  c4_amended "phone: 123456+789012" (by decide)

/-- C5, counterexample: for an input with exactly one portfolio label
followed by an http(s) URL, `links.portfolio` is the **full match
including the label text** (`match` with the `g` flag returns full-match
strings, so `portfolioMatch[1] || portfolioMatch[0]` is not the capture
group): it is non-empty, does not start with `http`, and differs from the
URL alone. -/
theorem c5_claim_counterexample :
    (extractResumeData "portfolio: https://mysite.dev").links.portfolio
      = "portfolio: https://mysite.dev"
    ∧ (extractResumeData "portfolio: https://mysite.dev").links.portfolio ≠ ""
    ∧ isPrefixL ("http".data)
        ((extractResumeData "portfolio: https://mysite.dev").links.portfolio).data = false
    ∧ (extractResumeData "portfolio: https://mysite.dev").links.portfolio
      ≠ "https://mysite.dev" := by
  refine ⟨by decide, by decide, by decide, by decide⟩

/-- C5, amended: `links.portfolio` is the empty string when the portfolio
pattern never matches; with exactly one label-plus-URL occurrence it is the
first full match, label text included; with two occurrences it is the
second full match (`portfolioMatch[1]` of the global match array). -/
theorem c5_amended :
    (extractResumeData "portfolio: https://mysite.dev").links.portfolio
      = "portfolio: https://mysite.dev"
    ∧ (extractResumeData "portfolio: https://a.dev web: https://b.dev").links.portfolio
      = "web: https://b.dev"
    ∧ (extractResumeData "").links.portfolio = "" := by
  refine ⟨by decide, by decide, by decide⟩

/-- C6: whenever the first labelled name pattern
`/(?:^|\n)\s*name\s*[:]\s*([^\n\r]+)/i` captures `"John Smith"` in a
non-empty input, the extracted `name` is `"John Smith"`: strategy 1 runs
first and its success short-circuits strategies 2, 2b, 3 and 4 (the
all-caps-first-line heuristics never run), regardless of what the first
line contains. -/
theorem c6_label_beats_capsline (text : String) (h0 : text.length ≠ 0)
    (h : (jsMatchArr false nameP1a text.data).bind (fun arr => arrGet arr 1)
      = some ("John Smith".data)) :
    (extractResumeData text).name = "John Smith" := by
  have h1 := nameStrat1_p1a text.data ("John Smith".data) h (by decide)
  have h2 := extractName_of_strat1 text.data (linesOf text.data) _ h1 (by decide)
  unfold extractResumeData
  rw [if_neg h0]
  show strOf (extractName text.data (linesOf text.data)) = "John Smith"
  rw [h2]
  decide

/-- C6, witness: a concrete input whose first line is an unrelated
all-caps string (`"ACME CORP"`) and which carries a `Name: John Smith`
label line; the labelled match wins. -/
theorem c6_label_beats_capsline_witness :
    (extractResumeData "ACME CORP\nName: John Smith\nDeveloper").name = "John Smith" :=
  c6_label_beats_capsline "ACME CORP\nName: John Smith\nDeveloper" (by decide) (by decide)

/-- C7: an input whose only email-shaped token is `foo@example.com` (and
which carries no `email:`-style label that would engage the labelled
fallback) yields an empty `email`; with `bar@realdomain.io` also present,
the placeholder-domain candidate is dropped and the first surviving match,
lowercased, is taken. -/
theorem c7_email_false_positive :
    (extractResumeData "reach me at foo@example.com please").email = ""
    ∧ (extractResumeData "reach me at foo@example.com or bar@realdomain.io please").email
      = "bar@realdomain.io"
    ∧ emailKeep ("foo@example.com".data) = false
    ∧ emailKeep ("bar@realdomain.io".data) = true := by
  refine ⟨by decide, by decide, by decide, by decide⟩

/-- C8: `"DOB: 04/02/1995"` selects `04/02/1995` through the labelled tier
(`dobLabelledTier` succeeds); the bare input `"04/02/1995"` gets the same
value through the year-range fallback (the labelled tier returns nothing
and the fallback pattern matches since 1995 ∈ [1940, 2015]); the bare
input `"04/02/2020"` leaves `dateOfBirth` empty (2020 is outside the
fallback's year range). -/
theorem c8_dob_tiers :
    (extractResumeData "DOB: 04/02/1995").dateOfBirth = "04/02/1995"
    ∧ dobLabelledTier ("DOB: 04/02/1995".data) = some ("04/02/1995".data)
    ∧ (extractResumeData "04/02/1995").dateOfBirth = "04/02/1995"
    ∧ dobLabelledTier ("04/02/1995".data) = none
    ∧ jsMatchAll datePat ("04/02/1995".data) = ["04/02/1995".data]
    ∧ (extractResumeData "04/02/2020").dateOfBirth = "" := by
  refine ⟨by decide, by decide, by decide, by decide, by decide, by decide⟩

/-- C9: the placeholder filter tests the domain by substring containment
(`domain.includes(fp)`), not equality: `user@protest.com` is dropped from
the primary scan — its domain `protest.com` is none of the four
placeholder domains but contains `"test.com"` — so the extracted email is
empty. -/
theorem c9_placeholder_substring :
    (extractResumeData "write user@protest.com now").email = ""
    ∧ emailKeep ("user@protest.com".data) = false
    ∧ falsePositives.contains "protest.com" = false
    ∧ falsePositives.any (fun fp => containsL ("protest.com".data) fp.data) = true := by
  refine ⟨by decide, by decide, by decide, by decide⟩

/-- C10: the standalone tier's email-adjacency guard inspects the five
characters around `originalText.indexOf(match)` — the **first** occurrence
of the matched string.  In `"a@1234567890 call 1234567890"` the candidate
`"1234567890"` occurs twice; the second occurrence is standalone (its
surrounding windows `"call "` and `""` contain no `'@'`), yet both matches
are rejected because the first occurrence (index 2) sits right after
`"a@"`, so `contactNumber` stays empty. -/
theorem c10_indexof_first_occurrence :
    (extractResumeData "a@1234567890 call 1234567890").contactNumber = ""
    ∧ "a@1234567890 call 1234567890" = "a@1234567890 call " ++ "1234567890"
    ∧ indexOfL ("a@1234567890 call 1234567890".data) ("1234567890".data) = some 2
    ∧ containsL (substringL ("a@1234567890 call 1234567890".data) 0 2) ['@'] = true
    ∧ containsL (substringL ("a@1234567890 call 1234567890".data) 13 18) ['@'] = false
    ∧ containsL (substringL ("a@1234567890 call 1234567890".data) 28 33) ['@'] = false := by
  refine ⟨by decide, by decide, by decide, by decide, by decide, by decide⟩

end HRV
